import Mathlib

/-!
Shallow embedding of `main.go` of the raindrop-io-mcp-server repository:
a line-oriented JSON-RPC dispatcher exposing two tools (`create-bookmark`,
`search-bookmarks`) over an upstream HTTP client.

The embedding works at the level of decoded JSON values.  Go's
`map[string]interface{}` / `interface{}` values obtained from
`encoding/json` are modelled by the `Json` inductive below (JSON numbers
are modelled as integers; no claim involves fractional numbers).  The
upstream HTTP client (`RaindropClient.MakeRequest`) is modelled as an
oracle `Upstream` mapping a call description to either a decoded JSON
object (the 2xx case) or an error string (non-2xx / network / decode
failure); handlers additionally return the trace of upstream calls they
performed, so "no upstream call is made" is expressible.
-/

namespace Raindrop

/-- Decoded JSON values, the model of Go `interface{}` results of
`encoding/json` decoding.  `null` models the nil interface value. -/
inductive Json where
  | null : Json
  | bool : Bool → Json
  | num : Int → Json
  | str : String → Json
  | arr : List Json → Json
  | obj : List (String × Json) → Json

/-- Lookup of a key in a decoded JSON object (Go map indexing: a missing
key yields the nil interface value, modelled as `none`). -/
def jsonLookup : List (String × Json) → String → Option Json
  | [], _ => none
  | (k, v) :: rest, key => if k = key then some v else jsonLookup rest key

/-- Field access on a JSON value: object lookup, `none` otherwise. -/
def Json.getField : Json → String → Option Json
  | .obj fields, key => jsonLookup fields key
  | _, _ => none

-- MCP envelope types (from `main.go`).

/-- The decoded request envelope (`Request` struct in `main.go`).
`params` is the raw `params` member: `none` when the member is absent
(nil `json.RawMessage`), `some j` when present with value `j`. -/
structure Request where
  jsonrpc : String
  id : Int
  method : String
  params : Option Json

/-- The response envelope (`Response` struct): `result` and `error` are
both `omitempty`, so each is optional. -/
structure ErrorResponse where
  code : Int
  message : String

structure Response where
  jsonrpc : String
  id : Int
  result : Option Json
  error : Option ErrorResponse

/-- Decoded `mcp.callTool` params (`CallToolRequest` struct).
`arguments` is a raw message: `none` when absent. -/
structure CallToolRequest where
  name : String
  arguments : Option Json

/-- The `CreateBookmarkArgs` struct. -/
structure CreateBookmarkArgs where
  url : String
  title : String
  tags : List String
  collection : Int

/-- The `SearchBookmarksArgs` struct. -/
structure SearchBookmarksArgs where
  query : String
  tags : List String

/-- One call performed through the upstream client
(`RaindropClient.MakeRequest`): endpoint path, HTTP method, optional
JSON body. -/
structure UpstreamCall where
  endpoint : String
  method : String
  body : Option Json

/-- The upstream client as an oracle: a 2xx response with a decoded JSON
object body yields `.ok fields`; any failure (non-2xx status, network
error, undecodable body) yields `.error msg` carrying the message that
`MakeRequest` would return. -/
def Upstream : Type := UpstreamCall → Except String (List (String × Json))

-- Decoders, modelling Go `encoding/json` unmarshalling of the raw
-- messages into the structs above.

/-- Decode a JSON object field slot into a Go `string` struct field:
absent or `null` leaves the zero value `""`, a JSON string is taken
verbatim, any other shape is an unmarshal type error. -/
def decodeStringField (fields : List (String × Json)) (key : String) :
    Except String String :=
  match jsonLookup fields key with
  | none => .ok ""
  | some .null => .ok ""
  | some (.str s) => .ok s
  | some _ => .error ("json: cannot unmarshal value into field " ++ key ++ " of type string")

/-- Decode a JSON array element into a Go `string` element:
`null` yields `""`, a string is taken verbatim, other shapes error. -/
def decodeStringElems : List Json → Except String (List String)
  | [] => .ok []
  | .null :: rest => do
    let tail ← decodeStringElems rest
    .ok ("" :: tail)
  | .str s :: rest => do
    let tail ← decodeStringElems rest
    .ok (s :: tail)
  | _ :: rest => do
    let _ ← decodeStringElems rest
    .error "json: cannot unmarshal element into type string"

/-- Decode a JSON object field slot into a Go `[]string` struct field:
absent or `null` leaves the zero value (nil slice, modelled `[]`). -/
def decodeStringListField (fields : List (String × Json)) (key : String) :
    Except String (List String) :=
  match jsonLookup fields key with
  | none => .ok []
  | some .null => .ok []
  | some (.arr xs) => decodeStringElems xs
  | some _ => .error ("json: cannot unmarshal value into field " ++ key ++ " of type []string")

/-- Decode a JSON object field slot into a Go `int` struct field:
absent or `null` leaves the zero value `0`. -/
def decodeIntField (fields : List (String × Json)) (key : String) :
    Except String Int :=
  match jsonLookup fields key with
  | none => .ok 0
  | some .null => .ok 0
  | some (.num n) => .ok n
  | some _ => .error ("json: cannot unmarshal value into field " ++ key ++ " of type int")

/-- Go `json.Unmarshal(req.Params, &callReq)`: a nil raw message (absent
`params`) fails with "unexpected end of JSON input"; JSON `null` leaves
the zero-valued struct; an object decodes fieldwise (`arguments` being a
`json.RawMessage` keeps the raw value, absent stays nil); any other JSON
shape is a type error. -/
def decodeCallToolRequest : Option Json → Except String CallToolRequest
  | none => .error "unexpected end of JSON input"
  | some .null => .ok { name := "", arguments := none }
  | some (.obj fields) => do
    let name ← decodeStringField fields "name"
    .ok { name := name, arguments := jsonLookup fields "arguments" }
  | some _ => .error "json: cannot unmarshal value into type CallToolRequest"

/-- Go `json.Unmarshal(callReq.Arguments, &createArgs)`. -/
def decodeCreateBookmarkArgs : Option Json → Except String CreateBookmarkArgs
  | none => .error "unexpected end of JSON input"
  | some .null => .ok { url := "", title := "", tags := [], collection := 0 }
  | some (.obj fields) => do
    let url ← decodeStringField fields "url"
    let title ← decodeStringField fields "title"
    let tags ← decodeStringListField fields "tags"
    let collection ← decodeIntField fields "collection"
    .ok { url := url, title := title, tags := tags, collection := collection }
  | some _ => .error "json: cannot unmarshal value into type CreateBookmarkArgs"

/-- Go `json.Unmarshal(callReq.Arguments, &searchArgs)`. -/
def decodeSearchBookmarksArgs : Option Json → Except String SearchBookmarksArgs
  | none => .error "unexpected end of JSON input"
  | some .null => .ok { query := "", tags := [] }
  | some (.obj fields) => do
    let query ← decodeStringField fields "query"
    let tags ← decodeStringListField fields "tags"
    .ok { query := query, tags := tags }
  | some _ => .error "json: cannot unmarshal value into type SearchBookmarksArgs"

-- Go `fmt` rendering with the `%s` verb, as used by
-- `fmt.Sprintf("Bookmark created successfully: %s", bookmark["link"])`
-- on a decoded-JSON interface value.

/-- Hex digit used by percent-encoding and by nothing else. -/
def hexDigit (n : Nat) : Char :=
  if n < 10 then Char.ofNat (48 + n) else Char.ofNat (55 + n)

/-- Go `fmt` `%s` rendering of one decoded-JSON `interface{}` value:
a string prints verbatim; every non-string dynamic type prints the
bad-verb form `%!s(type=value)`; slices and maps recurse elementwise
inside brackets. -/
def goFmtJson : Json → String
  | .null => "%!s(<nil>)"
  | .str s => s
  | .bool b => "%!s(bool=" ++ (if b then "true" else "false") ++ ")"
  | .num n => "%!s(float64=" ++ toString n ++ ")"
  | .arr xs =>
    "[" ++ String.intercalate " " (xs.attach.map fun x => goFmtJson x.1) ++ "]"
  | .obj fs =>
    "map[" ++ String.intercalate " " (fs.attach.map fun kv =>
      kv.1.1 ++ ":" ++ goFmtJson kv.1.2) ++ "]"
termination_by j => sizeOf j
decreasing_by
  · have := List.sizeOf_lt_of_mem x.2
    simp at *
    omega
  · obtain ⟨⟨k, v⟩, hm⟩ := kv
    have := List.sizeOf_lt_of_mem hm
    simp at *
    omega

/-- Rendering with `%s` of the result of a Go map lookup: a missing key (or a
JSON `null` stored at the key) is the nil interface value and prints
`%!s(<nil>)`. -/
def goFmtS : Option Json → String
  | none => "%!s(<nil>)"
  | some j => goFmtJson j

-- `net/url` query encoding used to build the search endpoint.

/-- Go `url.QueryEscape` applied bytewise to the UTF-8 encoding:
alphanumerics and `-._~` are kept, space becomes `+`, every other byte
becomes `%XX` with uppercase hex. -/
def escapeByte (b : UInt8) : String :=
  let n := b.toNat
  if (65 ≤ n ∧ n ≤ 90) ∨ (97 ≤ n ∧ n ≤ 122) ∨ (48 ≤ n ∧ n ≤ 57) ∨
      n = 45 ∨ n = 46 ∨ n = 95 ∨ n = 126 then
    String.singleton (Char.ofNat n)
  else if n = 32 then "+"
  else "%" ++ String.singleton (hexDigit (n / 16)) ++ String.singleton (hexDigit (n % 16))

def queryEscape (s : String) : String :=
  String.join (s.toUTF8.toList.map escapeByte)

/-- The endpoint built for search-bookmarks:
`fmt.Sprintf("/raindrops/0?%s", params.Encode())` where `params` holds
`search` (always) and `tags` (only when the tag list is non-empty,
joined by commas); `Encode` sorts keys, and `search` < `tags`. -/
def searchEndpoint (args : SearchBookmarksArgs) : String :=
  "/raindrops/0?search=" ++ queryEscape args.query ++
    (if args.tags.length > 0 then "&tags=" ++ queryEscape (String.intercalate "," args.tags)
     else "")

-- Tool schemas (`createJSONSchema`) and the `mcp.listTools` result,
-- as marshalled by `encoding/json` (map keys come out sorted, struct
-- fields in declaration order).

def stringProperty (description : String) : Json :=
  .obj [("description", .str description), ("type", .str "string")]

def createBookmarkSchema : Json :=
  .obj
    [("properties", .obj
      [("collection", .obj
        [("description", .str "Collection ID to save to (optional)"),
         ("type", .str "number")]),
       ("tags", .obj
        [("description", .str "Tags for the bookmark (optional)"),
         ("items", .obj [("type", .str "string")]),
         ("type", .str "array")]),
       ("title", stringProperty "Title for the bookmark (optional)"),
       ("url", stringProperty "URL to bookmark")]),
     ("required", .arr [.str "url"]),
     ("type", .str "object")]

def searchBookmarksSchema : Json :=
  .obj
    [("properties", .obj
      [("query", stringProperty "Search query"),
       ("tags", .obj
        [("description", .str "Filter by tags (optional)"),
         ("items", .obj [("type", .str "string")]),
         ("type", .str "array")])]),
     ("required", .arr [.str "query"]),
     ("type", .str "object")]

def toolJson (name description : String) (schema : Json) : Json :=
  .obj [("name", .str name), ("description", .str description),
        ("inputSchema", schema)]

/-- The `mcp.listTools` result payload (`ListToolsResponse`). -/
def listToolsResult : Json :=
  .obj [("tools", .arr
    [toolJson "create-bookmark" "Create a new bookmark in Raindrop.io"
      createBookmarkSchema,
     toolJson "search-bookmarks" "Search through your Raindrop.io bookmarks"
      searchBookmarksSchema])]

/-- A `CallToolResponse` with one text content block, marshalled. -/
def callToolResult (text : String) : Json :=
  .obj [("content", .arr
    [.obj [("type", .str "text"), ("text", .str text)]])]

-- Search result formatting (the loop over `items` in `main.go`).

/-- The tag-extraction loop: strings are appended, every non-string
element of the `tags` array is skipped. -/
def collectTags : List Json → List String
  | [] => []
  | .str s :: rest => s :: collectTags rest
  | _ :: rest => collectTags rest

/-- Go `title, _ := bookmark["title"].(string)`: a failed type assertion
with the two-value form leaves the zero value `""`. -/
def assertString (v : Option Json) : String :=
  match v with
  | some (.str s) => s
  | _ => ""

/-- One formatted bookmark block, from the body of the items loop. -/
def formatBlock (fields : List (String × Json)) : String :=
  let title := assertString (jsonLookup fields "title")
  let link := assertString (jsonLookup fields "link")
  let tagList :=
    match jsonLookup fields "tags" with
    | some (.arr ts) => collectTags ts
    | _ => []
  let tagsStr := if tagList.length > 0 then String.intercalate ", " tagList else "No tags"
  "\nTitle: " ++ title ++ "\nURL: " ++ link ++ "\nTags: " ++ tagsStr ++ "\n---"

/-- The items loop: each element that is a JSON object contributes one
block; any other element is skipped (`continue`). -/
def formatItems : List Json → String
  | [] => ""
  | .obj fields :: rest => formatBlock fields ++ formatItems rest
  | _ :: rest => formatItems rest

/-- The final response text of search-bookmarks. -/
def searchResponseText (items : List Json) : String :=
  if items.length > 0 then
    "Found " ++ toString items.length ++ " bookmarks:" ++ formatItems items
  else
    "No bookmarks found matching your search."

-- create-bookmark request body.

/-- The body map sent to `POST /raindrop`, as marshalled (map keys
sorted: collection, link, tags, title).  The `collection` branch of
`main.go` puts `{"$id": c}` when `c != 0` and `{"$id": 0}` otherwise;
both reduce to `{"$id": c}` since the else branch only runs at `c = 0`. -/
def createBookmarkBody (args : CreateBookmarkArgs) : Json :=
  .obj
    [("collection", .obj [("$id", .num (if args.collection ≠ 0 then args.collection else 0))]),
     ("link", .str args.url),
     ("tags", .arr (args.tags.map .str)),
     ("title", .str args.title)]

-- Response assembly helpers.

def errResp (id : Int) (code : Int) (message : String) : Response :=
  { jsonrpc := "2.0", id := id, result := none,
    error := some { code := code, message := message } }

def okResp (id : Int) (result : Json) : Response :=
  { jsonrpc := "2.0", id := id, result := some result, error := none }

-- Tool handlers: each returns the response together with the trace of
-- upstream calls performed.

/-- The create-bookmark branch of the `callReq.Name` switch. -/
def handleCreate (upstream : Upstream) (id : Int) (arguments : Option Json) :
    Response × List UpstreamCall :=
  match decodeCreateBookmarkArgs arguments with
  | .error e => (errResp id (-32602) ("Invalid arguments: " ++ e), [])
  | .ok args =>
    if args.url = "" then
      (errResp id (-32602) "URL is required", [])
    else
      let call : UpstreamCall :=
        { endpoint := "/raindrop", method := "POST",
          body := some (createBookmarkBody args) }
      match upstream call with
      | .error e => (errResp id (-32603) ("Internal error: " ++ e), [call])
      | .ok bookmark =>
        (okResp id (callToolResult
          ("Bookmark created successfully: " ++ goFmtS (jsonLookup bookmark "link"))),
         [call])

/-- The search-bookmarks branch of the `callReq.Name` switch. -/
def handleSearch (upstream : Upstream) (id : Int) (arguments : Option Json) :
    Response × List UpstreamCall :=
  match decodeSearchBookmarksArgs arguments with
  | .error e => (errResp id (-32602) ("Invalid arguments: " ++ e), [])
  | .ok args =>
    if args.query = "" then
      (errResp id (-32602) "Query is required", [])
    else
      let call : UpstreamCall :=
        { endpoint := searchEndpoint args, method := "GET", body := none }
      match upstream call with
      | .error e => (errResp id (-32603) ("Internal error: " ++ e), [call])
      | .ok results =>
        match jsonLookup results "items" with
        | some (.arr items) =>
          (okResp id (callToolResult (searchResponseText items)), [call])
        | _ => (errResp id (-32603) "Unable to parse results", [call])

/-- One iteration of the dispatcher for a decoded request: the method
switch of `main.go`, producing the response and the upstream-call trace. -/
def processRequest (upstream : Upstream) (req : Request) :
    Response × List UpstreamCall :=
  if req.method = "mcp.listTools" then
    (okResp req.id listToolsResult, [])
  else if req.method = "mcp.callTool" then
    match decodeCallToolRequest req.params with
    | .error e => (errResp req.id (-32602) ("Invalid params: " ++ e), [])
    | .ok callReq =>
      if callReq.name = "create-bookmark" then
        handleCreate upstream req.id callReq.arguments
      else if callReq.name = "search-bookmarks" then
        handleSearch upstream req.id callReq.arguments
      else
        (errResp req.id (-32601) ("Unknown tool: " ++ callReq.name), [])
  else
    (errResp req.id (-32601) ("Method not found: " ++ req.method), [])

/-- The dispatcher loop over input lines.  Each line's decode outcome is
`none` (undecodable: logged and skipped, no response) or `some req`; a
decoded line contributes exactly one response to the output stream. -/
def processLines (upstream : Upstream) : List (Option Request) → List Response
  | [] => []
  | none :: rest => processLines upstream rest
  | some req :: rest =>
    (processRequest upstream req).1 :: processLines upstream rest

-- Shared lemmas.

/-- Every branch of the dispatcher fills the response envelope with the
protocol tag, the request id, and exactly one of result / error. -/
theorem processRequest_inv (u : Upstream) (req : Request) :
    ((processRequest u req).1).jsonrpc = "2.0" ∧
      ((processRequest u req).1).id = req.id ∧
      (((processRequest u req).1).result.isSome ∧ ((processRequest u req).1).error = none ∨
        ((processRequest u req).1).result = none ∧ ((processRequest u req).1).error.isSome) := by
  unfold processRequest handleCreate handleSearch
  repeat' split
  all_goals try simp [errResp, okResp]
  all_goals (rcases hru : u _ with e | results)
  all_goals simp [hru, errResp, okResp]
  all_goals (rcases jsonLookup results "items" with _ | j)
  all_goals try simp [errResp, okResp]
  all_goals (cases j <;> simp [errResp, okResp])

-- Claim theorems.

/-- C1: for every input line that decodes as a valid Request envelope,
the dispatcher loop emits exactly one output line — one response per
decoded request, in input order (the output list is the image of the
decoded-request list), and each response carries its request's id. -/
theorem c1_one_ordered_response_per_decoded_line (u : Upstream)
    (lines : List (Option Request)) :
    processLines u lines =
      (lines.filterMap id).map (fun r => (processRequest u r).1) ∧
      ∀ r : Request, ((processRequest u r).1).id = r.id := by
  constructor
  · induction lines with
    | nil => rfl
    | cons hd tl ih => cases hd <;> simp [processLines, ih]
  · intro r
    exact (processRequest_inv u r).2.1

/-- C2: every response envelope carries `"jsonrpc": "2.0"`, the matching
request's id, and exactly one of a result payload or an error object,
along every routing branch. -/
theorem c2_response_envelope_well_formed (u : Upstream) (req : Request) :
    ((processRequest u req).1).jsonrpc = "2.0" ∧
      ((processRequest u req).1).id = req.id ∧
      (((processRequest u req).1).result.isSome ∧ ((processRequest u req).1).error = none ∨
        ((processRequest u req).1).result = none ∧ ((processRequest u req).1).error.isSome) :=
  processRequest_inv u req

/-- C3: a create-bookmark invocation whose decoded arguments have an
empty URL yields the error response `-32602` / "URL is required" and
performs no upstream call (empty call trace). -/
theorem c3_empty_url_no_upstream_call (u : Upstream) (req : Request)
    (callReq : CallToolRequest) (args : CreateBookmarkArgs)
    (h1 : req.method = "mcp.callTool")
    (h2 : decodeCallToolRequest req.params = .ok callReq)
    (h3 : callReq.name = "create-bookmark")
    (h4 : decodeCreateBookmarkArgs callReq.arguments = .ok args)
    (h5 : args.url = "") :
    processRequest u req = (errResp req.id (-32602) "URL is required", []) := by
  simp [processRequest, h1, h2, h3, handleCreate, h4, h5]

theorem c3_empty_url_no_upstream_call_witness :
    processRequest (fun _ => .error "never")
        { jsonrpc := "2.0", id := 7, method := "mcp.callTool",
          params := some (.obj [("name", .str "create-bookmark"),
            ("arguments", .obj [("url", .str "")])]) } =
      (errResp 7 (-32602) "URL is required", []) :=
  c3_empty_url_no_upstream_call (fun _ => .error "never") _
    { name := "create-bookmark", arguments := some (.obj [("url", .str "")]) }
    { url := "", title := "", tags := [], collection := 0 }
    rfl rfl rfl rfl rfl

/-- C7: an unknown method yields error `-32601` with the method name in
the message; a known `mcp.callTool` envelope naming an unknown tool
yields error `-32601` with the tool name in the message. -/
theorem c7_unknown_method_or_tool (u : Upstream) (req : Request) :
    (req.method ≠ "mcp.listTools" → req.method ≠ "mcp.callTool" →
      (processRequest u req).1 =
        errResp req.id (-32601) ("Method not found: " ++ req.method)) ∧
    (∀ callReq : CallToolRequest, req.method = "mcp.callTool" →
      decodeCallToolRequest req.params = .ok callReq →
      callReq.name ≠ "create-bookmark" → callReq.name ≠ "search-bookmarks" →
      (processRequest u req).1 =
        errResp req.id (-32601) ("Unknown tool: " ++ callReq.name)) := by
  constructor
  · intro hm hc
    simp [processRequest, hm, hc]
  · intro callReq hm hdec hn1 hn2
    simp [processRequest, hm, hdec, hn1, hn2]

theorem c7_unknown_method_or_tool_witness :
    (processRequest (fun _ => .error "never")
        { jsonrpc := "2.0", id := 1, method := "foo.bar", params := none }).1 =
      errResp 1 (-32601) "Method not found: foo.bar" ∧
    (processRequest (fun _ => .error "never")
        { jsonrpc := "2.0", id := 2, method := "mcp.callTool",
          params := some (.obj [("name", .str "delete-bookmark")]) }).1 =
      errResp 2 (-32601) "Unknown tool: delete-bookmark" :=
  ⟨(c7_unknown_method_or_tool (fun _ => .error "never")
      { jsonrpc := "2.0", id := 1, method := "foo.bar", params := none }).1
      (by decide) (by decide),
   (c7_unknown_method_or_tool (fun _ => .error "never")
      { jsonrpc := "2.0", id := 2, method := "mcp.callTool",
        params := some (.obj [("name", .str "delete-bookmark")]) }).2
      { name := "delete-bookmark", arguments := none }
      rfl rfl (by decide) (by decide)⟩

/-- C8: an input line that fails to decode produces no output line and
the loop continues with the next line; a line that decodes always
produces an output line, so the undecodable case is the only one with
no response. -/
theorem c8_undecodable_line_skipped (u : Upstream) (rest : List (Option Request)) :
    processLines u (none :: rest) = processLines u rest ∧
      ∀ req : Request, processLines u (some req :: rest) =
        (processRequest u req).1 :: processLines u rest := by
  exact ⟨rfl, fun _ => rfl⟩

/-- C4: a create-bookmark invocation with non-empty URL performs exactly
one upstream `POST /raindrop` whose body always carries the collection
reference `collection:{"$id": c}` with `c` the decoded collection
argument (an absent or `0` argument decodes to `0`, so the body then
carries `{"$id":0}`); the key is never omitted. -/
theorem c4_collection_always_sent (u : Upstream) (req : Request)
    (callReq : CallToolRequest) (args : CreateBookmarkArgs)
    (h1 : req.method = "mcp.callTool")
    (h2 : decodeCallToolRequest req.params = .ok callReq)
    (h3 : callReq.name = "create-bookmark")
    (h4 : decodeCreateBookmarkArgs callReq.arguments = .ok args)
    (h5 : args.url ≠ "") :
    (processRequest u req).2 =
      [{ endpoint := "/raindrop", method := "POST",
         body := some (createBookmarkBody args) }] ∧
    (createBookmarkBody args).getField "collection" =
      some (.obj [("$id", .num args.collection)]) := by
  constructor
  · simp only [processRequest, handleCreate, h1, h2, h3, h4]
    simp [h5]
    rcases hru : u _ with e | bm <;> simp [hru]
  · by_cases hc : args.collection = 0 <;>
      simp [createBookmarkBody, Json.getField, jsonLookup, hc]

theorem c4_collection_always_sent_witness :
    (processRequest (fun _ => .error "down")
        { jsonrpc := "2.0", id := 5, method := "mcp.callTool",
          params := some (.obj [("name", .str "create-bookmark"),
            ("arguments", .obj [("url", .str "https://example.com")])]) }).2 =
      [{ endpoint := "/raindrop", method := "POST",
         body := some (createBookmarkBody
           { url := "https://example.com", title := "", tags := [], collection := 0 }) }] ∧
    (createBookmarkBody
        { url := "https://example.com", title := "", tags := [], collection := 0 }).getField
        "collection" =
      some (.obj [("$id", .num 0)]) :=
  c4_collection_always_sent (fun _ => .error "down") _
    { name := "create-bookmark",
      arguments := some (.obj [("url", .str "https://example.com")]) }
    { url := "https://example.com", title := "", tags := [], collection := 0 }
    rfl rfl rfl rfl (by decide)

-- Helper lemmas for the search-bookmarks claims.

/-- Concatenation of a list of strings (the builder accumulation). -/
def joinAll : List String → String
  | [] => ""
  | s :: rest => s ++ joinAll rest

theorem formatItems_objs (fieldss : List (List (String × Json))) :
    formatItems (fieldss.map Json.obj) = joinAll (fieldss.map formatBlock) := by
  induction fieldss with
  | nil => rfl
  | cons hd tl ih => simp [formatItems, joinAll, ih]

theorem collectTags_map_str (sl : List String) :
    collectTags (sl.map Json.str) = sl := by
  induction sl with
  | nil => rfl
  | cons hd tl ih => simp [collectTags, ih]

/-- Under the routing and upstream hypotheses, the dispatcher reaches
the items-formatting branch of search-bookmarks. -/
theorem searchDispatch (u : Upstream) (req : Request)
    (callReq : CallToolRequest) (args : SearchBookmarksArgs)
    (results : List (String × Json)) (items : List Json)
    (h1 : req.method = "mcp.callTool")
    (h2 : decodeCallToolRequest req.params = .ok callReq)
    (h3 : callReq.name = "search-bookmarks")
    (h4 : decodeSearchBookmarksArgs callReq.arguments = .ok args)
    (h5 : args.query ≠ "")
    (h6 : u { endpoint := searchEndpoint args, method := "GET", body := none } = .ok results)
    (h7 : jsonLookup results "items" = some (.arr items)) :
    (processRequest u req).1 = okResp req.id (callToolResult (searchResponseText items)) := by
  simp only [processRequest, handleSearch, h1, h2, h3, h4]
  simp [h5, h6, h7]

/-- C5: search-bookmarks result text — empty items give exactly the
fixed no-results sentence; `n > 0` object items give the header
`Found n bookmarks:` followed by one block per item; each block shows
the item's title, link and comma-joined tags, with the placeholder
`No tags` when the item has none. -/
theorem c5_search_result_formatting (u : Upstream) (req : Request)
    (callReq : CallToolRequest) (args : SearchBookmarksArgs)
    (results : List (String × Json)) (items : List Json)
    (h1 : req.method = "mcp.callTool")
    (h2 : decodeCallToolRequest req.params = .ok callReq)
    (h3 : callReq.name = "search-bookmarks")
    (h4 : decodeSearchBookmarksArgs callReq.arguments = .ok args)
    (h5 : args.query ≠ "")
    (h6 : u { endpoint := searchEndpoint args, method := "GET", body := none } = .ok results)
    (h7 : jsonLookup results "items" = some (.arr items)) :
    (items = [] →
      (processRequest u req).1 =
        okResp req.id (callToolResult "No bookmarks found matching your search.")) ∧
    (∀ fieldss : List (List (String × Json)),
      items = fieldss.map Json.obj → items ≠ [] →
      (processRequest u req).1 = okResp req.id (callToolResult
        ("Found " ++ toString items.length ++ " bookmarks:" ++
          joinAll (fieldss.map formatBlock)))) ∧
    (∀ fs (sl : List String),
      jsonLookup fs "tags" = some (.arr (sl.map Json.str)) → sl ≠ [] →
      formatBlock fs =
        "\nTitle: " ++ assertString (jsonLookup fs "title") ++
        "\nURL: " ++ assertString (jsonLookup fs "link") ++
        "\nTags: " ++ String.intercalate ", " sl ++ "\n---") ∧
    (∀ fs, jsonLookup fs "tags" = none →
      formatBlock fs =
        "\nTitle: " ++ assertString (jsonLookup fs "title") ++
        "\nURL: " ++ assertString (jsonLookup fs "link") ++
        "\nTags: No tags\n---") := by
  refine ⟨?_, ?_, ?_, ?_⟩
  · intro hnil
    rw [searchDispatch u req callReq args results items h1 h2 h3 h4 h5 h6 h7]
    subst hnil
    rfl
  · intro fieldss hobj hne
    rw [searchDispatch u req callReq args results items h1 h2 h3 h4 h5 h6 h7]
    have hlen : items.length > 0 := by
      cases items with
      | nil => exact absurd rfl hne
      | cons hd tl => simp
    rw [searchResponseText, if_pos hlen, hobj, formatItems_objs]
  · intro fs sl htags hne
    have hlen : 0 < sl.length := List.length_pos.mpr hne
    simp [formatBlock, htags, collectTags_map_str, hlen, String.append_assoc]
  · intro fs htags
    simp [formatBlock, htags, collectTags, String.append_assoc]

theorem c5_search_result_formatting_witness :
    (processRequest
        (fun _ => .ok [("items", .arr
          [.obj [("title", .str "T1"), ("link", .str "L1"),
                 ("tags", .arr [.str "a", .str "b"])],
           .obj [("title", .str "T2"), ("link", .str "L2")]])])
        { jsonrpc := "2.0", id := 3, method := "mcp.callTool",
          params := some (.obj [("name", .str "search-bookmarks"),
            ("arguments", .obj [("query", .str "go")])]) }).1 =
      okResp 3 (callToolResult
        "Found 2 bookmarks:\nTitle: T1\nURL: L1\nTags: a, b\n---\nTitle: T2\nURL: L2\nTags: No tags\n---") := by
  have h := (c5_search_result_formatting
    (fun _ => .ok [("items", .arr
      [.obj [("title", .str "T1"), ("link", .str "L1"),
             ("tags", .arr [.str "a", .str "b"])],
       .obj [("title", .str "T2"), ("link", .str "L2")]])])
    { jsonrpc := "2.0", id := 3, method := "mcp.callTool",
      params := some (.obj [("name", .str "search-bookmarks"),
        ("arguments", .obj [("query", .str "go")])]) }
    { name := "search-bookmarks",
      arguments := some (.obj [("query", .str "go")]) }
    { query := "go", tags := [] }
    [("items", .arr
      [.obj [("title", .str "T1"), ("link", .str "L1"),
             ("tags", .arr [.str "a", .str "b"])],
       .obj [("title", .str "T2"), ("link", .str "L2")]])]
    [.obj [("title", .str "T1"), ("link", .str "L1"),
           ("tags", .arr [.str "a", .str "b"])],
     .obj [("title", .str "T2"), ("link", .str "L2")]]
    rfl rfl rfl rfl (by decide) rfl rfl).2.1
    [[("title", .str "T1"), ("link", .str "L1"),
      ("tags", .arr [.str "a", .str "b"])],
     [("title", .str "T2"), ("link", .str "L2")]]
    rfl (by simp)
  rw [h]
  rfl

/-- C6: a search-bookmarks invocation whose upstream 2xx body has no
`items` member that is an array is answered with error `-32603` /
"Unable to parse results", whereas an empty `items` array is answered
with a success result carrying the no-results text. -/
theorem c6_missing_items_is_internal_error (u : Upstream) (req : Request)
    (callReq : CallToolRequest) (args : SearchBookmarksArgs)
    (results : List (String × Json))
    (h1 : req.method = "mcp.callTool")
    (h2 : decodeCallToolRequest req.params = .ok callReq)
    (h3 : callReq.name = "search-bookmarks")
    (h4 : decodeSearchBookmarksArgs callReq.arguments = .ok args)
    (h5 : args.query ≠ "")
    (h6 : u { endpoint := searchEndpoint args, method := "GET", body := none } = .ok results) :
    ((∀ xs : List Json, jsonLookup results "items" ≠ some (.arr xs)) →
      (processRequest u req).1 = errResp req.id (-32603) "Unable to parse results") ∧
    (jsonLookup results "items" = some (.arr []) →
      (processRequest u req).1 =
        okResp req.id (callToolResult "No bookmarks found matching your search.")) := by
  constructor
  · intro hna
    simp only [processRequest, handleSearch, h1, h2, h3, h4]
    simp [h5, h6]
  · intro hit
    rw [searchDispatch u req callReq args results [] h1 h2 h3 h4 h5 h6 hit]
    rfl

theorem c6_missing_items_is_internal_error_witness :
    (processRequest (fun _ => .ok [("count", .num 0)])
        { jsonrpc := "2.0", id := 4, method := "mcp.callTool",
          params := some (.obj [("name", .str "search-bookmarks"),
            ("arguments", .obj [("query", .str "go")])]) }).1 =
      errResp 4 (-32603) "Unable to parse results" :=
  (c6_missing_items_is_internal_error (fun _ => .ok [("count", .num 0)])
    { jsonrpc := "2.0", id := 4, method := "mcp.callTool",
      params := some (.obj [("name", .str "search-bookmarks"),
        ("arguments", .obj [("query", .str "go")])]) }
    { name := "search-bookmarks",
      arguments := some (.obj [("query", .str "go")]) }
    { query := "go", tags := [] }
    [("count", .num 0)]
    rfl rfl rfl rfl (by decide) rfl).1
    (by intro xs h; simp [jsonLookup] at h)

/-- Any `filterMap` over a list with an element mapped to `none` is
strictly shorter than the list. -/
theorem length_filterMap_lt_of_none {α β : Type} (f : α → Option β)
    (l : List α) (h : ∃ a ∈ l, f a = none) :
    (l.filterMap f).length < l.length := by
  induction l with
  | nil => simp at h
  | cons hd tl ih =>
    rcases h with ⟨a, ha, hfa⟩
    rcases List.mem_cons.mp ha with rfl | hmem
    · rw [List.filterMap_cons, hfa]
      have := List.length_filterMap_le f tl
      simp
      omega
    · have := ih ⟨a, hmem, hfa⟩
      cases hf : f hd <;> simp [List.filterMap_cons, hf] <;> omega

/-- The items loop emits exactly the blocks of the object elements. -/
theorem formatItems_eq_filterMap (items : List Json) :
    formatItems items = joinAll (items.filterMap fun i =>
      match i with | .obj fs => some (formatBlock fs) | _ => none) := by
  induction items with
  | nil => rfl
  | cons hd tl ih => cases hd <;> simp [formatItems, joinAll, ih]

/-- The tag loop keeps exactly the string elements. -/
theorem collectTags_eq_filterMap (ts : List Json) :
    collectTags ts = ts.filterMap fun t =>
      match t with | .str s => some s | _ => none := by
  induction ts with
  | nil => rfl
  | cons hd tl ih => cases hd <;> simp [collectTags, ih]

/-- C9: the header count is the full length of `items`, while blocks are
emitted only for object elements — with a non-object element present
the block count is strictly below the header count — and non-string
entries of an item's `tags` array are dropped. -/
theorem c9_header_counts_all_items (u : Upstream) (req : Request)
    (callReq : CallToolRequest) (args : SearchBookmarksArgs)
    (results : List (String × Json)) (items : List Json)
    (h1 : req.method = "mcp.callTool")
    (h2 : decodeCallToolRequest req.params = .ok callReq)
    (h3 : callReq.name = "search-bookmarks")
    (h4 : decodeSearchBookmarksArgs callReq.arguments = .ok args)
    (h5 : args.query ≠ "")
    (h6 : u { endpoint := searchEndpoint args, method := "GET", body := none } = .ok results)
    (h7 : jsonLookup results "items" = some (.arr items)) :
    (processRequest u req).1 = okResp req.id (callToolResult (searchResponseText items)) ∧
    (0 < items.length → searchResponseText items =
      "Found " ++ toString items.length ++ " bookmarks:" ++ formatItems items) ∧
    formatItems items = joinAll (items.filterMap fun i =>
      match i with | .obj fs => some (formatBlock fs) | _ => none) ∧
    ((∃ i ∈ items, ∀ fs, i ≠ .obj fs) →
      (items.filterMap fun i =>
        match i with | .obj fs => some (formatBlock fs) | _ => none).length
        < items.length) ∧
    (∀ ts : List Json, collectTags ts = ts.filterMap fun t =>
      match t with | .str s => some s | _ => none) := by
  refine ⟨searchDispatch u req callReq args results items h1 h2 h3 h4 h5 h6 h7,
    ?_, ?_, ?_, ?_⟩
  · intro hlen
    rw [searchResponseText, if_pos hlen]
  · exact formatItems_eq_filterMap items
  · rintro ⟨i, hmem, hni⟩
    refine length_filterMap_lt_of_none _ _ ⟨i, hmem, ?_⟩
    cases i with
    | obj fs => exact absurd rfl (hni fs)
    | null => rfl
    | bool b => rfl
    | num n => rfl
    | str s => rfl
    | arr xs => rfl
  · exact collectTags_eq_filterMap

theorem c9_header_counts_all_items_witness :
    (processRequest
        (fun _ => .ok [("items", .arr
          [.obj [("title", .str "T"), ("link", .str "L")], .num 5])])
        { jsonrpc := "2.0", id := 6, method := "mcp.callTool",
          params := some (.obj [("name", .str "search-bookmarks"),
            ("arguments", .obj [("query", .str "go")])]) }).1 =
      okResp 6 (callToolResult
        "Found 2 bookmarks:\nTitle: T\nURL: L\nTags: No tags\n---") ∧
    ([Json.obj [("title", .str "T"), ("link", .str "L")], Json.num 5].filterMap
      (fun i => match i with | .obj fs => some (formatBlock fs) | _ => none)).length < 2 := by
  have h := c9_header_counts_all_items
    (fun _ => .ok [("items", .arr
      [.obj [("title", .str "T"), ("link", .str "L")], .num 5])])
    { jsonrpc := "2.0", id := 6, method := "mcp.callTool",
      params := some (.obj [("name", .str "search-bookmarks"),
        ("arguments", .obj [("query", .str "go")])]) }
    { name := "search-bookmarks",
      arguments := some (.obj [("query", .str "go")]) }
    { query := "go", tags := [] }
    [("items", .arr [.obj [("title", .str "T"), ("link", .str "L")], .num 5])]
    [.obj [("title", .str "T"), ("link", .str "L")], .num 5]
    rfl rfl rfl rfl (by decide) rfl rfl
  refine ⟨?_, ?_⟩
  · rw [h.1]
    rfl
  · exact h.2.2.2.1 ⟨.num 5,
      List.mem_cons_of_mem _ (List.mem_cons_self _ _),
      fun fs hx => Json.noConfusion hx⟩

/-- C10: a create-bookmark invocation whose upstream call succeeds with
a decoded body lacking a `link` member still returns a success result;
the confirmation text embeds Go fmt's rendering of the nil interface
value, `%!s(<nil>)`, where the stored link would go. -/
theorem c10_missing_link_renders_nil (u : Upstream) (req : Request)
    (callReq : CallToolRequest) (args : CreateBookmarkArgs)
    (bookmark : List (String × Json))
    (h1 : req.method = "mcp.callTool")
    (h2 : decodeCallToolRequest req.params = .ok callReq)
    (h3 : callReq.name = "create-bookmark")
    (h4 : decodeCreateBookmarkArgs callReq.arguments = .ok args)
    (h5 : args.url ≠ "")
    (h6 : u { endpoint := "/raindrop", method := "POST",
              body := some (createBookmarkBody args) } = .ok bookmark)
    (h7 : jsonLookup bookmark "link" = none) :
    (processRequest u req).1 =
      okResp req.id (callToolResult "Bookmark created successfully: %!s(<nil>)") := by
  simp only [processRequest, handleCreate, h1, h2, h3, h4]
  simp [h5, h6, h7, goFmtS]

theorem c10_missing_link_renders_nil_witness :
    (processRequest (fun _ => .ok [])
        { jsonrpc := "2.0", id := 8, method := "mcp.callTool",
          params := some (.obj [("name", .str "create-bookmark"),
            ("arguments", .obj [("url", .str "https://example.com")])]) }).1 =
      okResp 8 (callToolResult "Bookmark created successfully: %!s(<nil>)") :=
  c10_missing_link_renders_nil (fun _ => .ok [])
    { jsonrpc := "2.0", id := 8, method := "mcp.callTool",
      params := some (.obj [("name", .str "create-bookmark"),
        ("arguments", .obj [("url", .str "https://example.com")])]) }
    { name := "create-bookmark",
      arguments := some (.obj [("url", .str "https://example.com")]) }
    { url := "https://example.com", title := "", tags := [], collection := 0 }
    []
    rfl rfl rfl rfl (by decide) rfl rfl

end Raindrop
